import Mathlib

/-!
Shallow embedding of the SentinelAI conflict-detection pipeline
(`rules.py` and the `analyze_text` orchestrator of `app.py`), together
with theorems checking the specification's claims against it.

Python floats are modelled as exact rationals (`ℚ`); the scores involved
are small multiples of 1/100, where float and rational arithmetic agree.
Python exceptions from the external model call are modelled with
`Except String ModelSignal`.
-/

set_option maxRecDepth 10000

namespace SentinelAI

/-- The apostrophe character, written via its code point. -/
def apostrophe : Char := Char.ofNat 39

/-- `"don't"` — the lexicon entry containing an apostrophe. -/
def dontApos : String := "don" ++ apostrophe.toString ++ "t"

/-- `"can't"` — the lexicon entry containing an apostrophe. -/
def cantApos : String := "can" ++ apostrophe.toString ++ "t"

/-- `"you're"` — the lexicon entry containing an apostrophe. -/
def youreApos : String := "you" ++ apostrophe.toString ++ "re"

/-! ## Signal vocabularies (rules.py lines 20-39) -/

def SECOND_PERSON : List String := ["you", "your", youreApos, "youve"]

def ABSOLUTES : List String := ["always", "never", "nothing", "every"]

def DIRECTIVES : List String := ["stop", "fix", "explain", "do", "dont", dontApos]

def DISCOURSE_MARKERS : List String := ["but", "clearly", "obviously"]

def NEGATIONS : List String := ["not", "dont", dontApos, "cant", cantApos, "cannot"]

def REJECTION_VERBS : List String := ["like", "tolerate", "stand", "respect", "accept"]

def NEGATIVE_EVALUATIONS : List String :=
  ["unacceptable", "nonsense", "ridiculous",
   "inappropriate", "wrong", "bad", "terrible", "useless"]

def PROFANITY : List String := ["fuck", "shit", "damn", "asshole", "bitch"]

/-! ## Tokenizer (rules.py line 46-47): `re.findall(r"\b\w+\b", text.lower())`,
i.e. the maximal word-character runs of the lowercased text. -/

/-- A regex word character: alphanumeric or underscore. -/
def isWordChar (c : Char) : Bool := c.isAlphanum || c == '_'

/-- Accumulate maximal `isWordChar` runs; `acc` holds the current run reversed. -/
def tokenizeAux : List Char → List Char → List String
  | [], acc => if acc.isEmpty then [] else [String.mk acc.reverse]
  | c :: cs, acc =>
    if isWordChar c then tokenizeAux cs (c :: acc)
    else if acc.isEmpty then tokenizeAux cs acc
    else String.mk acc.reverse :: tokenizeAux cs []

def tokenize (text : String) : List String :=
  tokenizeAux (text.data.map Char.toLower) []

/-! ## Helpers (rules.py lines 50-55) -/

def count_overlap (tokens vocab : List String) : Nat :=
  (tokens.filter (fun t => t ∈ vocab)).length

def has_second_person (tokens : List String) : Bool :=
  decide (0 < count_overlap tokens SECOND_PERSON)

/-! ## Pattern detectors (rules.py lines 62-94)

The float thresholds `0.6`, `0.55`, `0.4` of the source are written
`mkRat 6 10`, `mkRat 55 100`, `mkRat 4 10`: the same rational values,
spelled so that the comparisons evaluate by `decide`. -/

def rejection_pattern (tokens : List String) : Bool :=
  decide (0 < count_overlap tokens REJECTION_VERBS)
    && decide (0 < count_overlap tokens NEGATIONS)

def blame_pattern (tokens : List String) (sentiment_score : ℚ) : Bool :=
  has_second_person tokens
    && (decide (0 < count_overlap tokens ABSOLUTES)
        || decide (mkRat 6 10 < sentiment_score))

def confrontational_pattern (tokens : List String) (sentiment_score : ℚ) : Bool :=
  decide (0 < count_overlap tokens DIRECTIVES)
    && decide (mkRat 55 100 < sentiment_score)

def negative_tone_pattern (tokens : List String) : Bool :=
  decide (0 < count_overlap tokens NEGATIVE_EVALUATIONS)
    || (decide ("dont" ∈ tokens) && decide ("like" ∈ tokens))

def norm_violation (tokens : List String) : Bool :=
  decide (0 < count_overlap tokens PROFANITY)

/-! ## Feature extraction (rules.py lines 101-121) -/

/-- The external model signal `{sentiment, sentiment_score, toxicity}`
(the `subjectivity` field of model.py is never read by the pipeline). -/
structure ModelSignal where
  sentiment : String
  sentiment_score : ℚ
  toxicity : ℚ
deriving DecidableEq, Repr

/-- The feature dict returned by `extract_rule_features`, with its keys in
Python dict insertion order. -/
structure FeatureSet where
  negative_tone : Bool
  norm_violation : Bool
  negative_interaction : Bool
  rejection : Bool
  blame : Bool
  confrontational : Bool
  toxic : Bool
deriving DecidableEq, Repr

/-- `FeatureSet` is a 7-tuple of booleans, hence a finite type. -/
def featureEquiv : FeatureSet ≃ (Bool × Bool × Bool × Bool × Bool × Bool × Bool) where
  toFun f := (f.negative_tone, f.norm_violation, f.negative_interaction,
              f.rejection, f.blame, f.confrontational, f.toxic)
  invFun p := ⟨p.1, p.2.1, p.2.2.1, p.2.2.2.1, p.2.2.2.2.1, p.2.2.2.2.2.1, p.2.2.2.2.2.2⟩
  left_inv _ := rfl
  right_inv _ := rfl

instance : Fintype FeatureSet := Fintype.ofEquiv _ featureEquiv.symm

def extract_rule_features (text : String) (model_output : ModelSignal) : FeatureSet :=
  let tokens := tokenize text
  { negative_tone := negative_tone_pattern tokens
    norm_violation := norm_violation tokens
    negative_interaction :=
      (model_output.sentiment == "negative") && has_second_person tokens
    rejection := rejection_pattern tokens
    blame := blame_pattern tokens model_output.sentiment_score
    confrontational := confrontational_pattern tokens model_output.sentiment_score
    toxic := decide (mkRat 4 10 < model_output.toxicity) }

/-! ## Conflict scoring (rules.py lines 128-154) -/

def calculate_conflict_score (features : FeatureSet) : ℚ :=
  let score : ℚ :=
    (if features.negative_tone then (0.3 : ℚ) else 0)
    + (if features.norm_violation then (0.6 : ℚ) else 0)
    + (if features.negative_interaction then (0.2 : ℚ) else 0)
    + (if features.rejection then (0.35 : ℚ) else 0)
    + (if features.blame then (0.3 : ℚ) else 0)
    + (if features.confrontational then (0.25 : ℚ) else 0)
    + (if features.toxic then (0.5 : ℚ) else 0)
  let score := score + (if features.negative_tone && features.rejection then (0.15 : ℚ) else 0)
  let score := score + (if features.blame && features.confrontational then (0.15 : ℚ) else 0)
  min score 1

/-! ## Public API (rules.py lines 161-180) -/

/-- Python `round(q, 3)` : round to 3 decimal places. All scores reaching it
are multiples of 1/20, so no tie-breaking case arises. -/
def round3 (q : ℚ) : ℚ := ((round (q * 1000) : ℤ) : ℚ) / 1000

def risk_level_of (score : ℚ) : String :=
  if score < (0.3 : ℚ) then "LOW"
  else if score < (0.6 : ℚ) then "MEDIUM"
  else "HIGH"

def recommendation_of (score : ℚ) : String :=
  if score < (0.3 : ℚ) then "No action needed"
  else if score < (0.6 : ℚ) then "Suggest cooling-off or rephrasing"
  else "Intervene or alert moderator"

/-- `[k for k, v in features.items() if v]` in dict insertion order. -/
def triggeredRules (f : FeatureSet) : List String :=
  ([("negative_tone", f.negative_tone),
    ("norm_violation", f.norm_violation),
    ("negative_interaction", f.negative_interaction),
    ("rejection", f.rejection),
    ("blame", f.blame),
    ("confrontational", f.confrontational),
    ("toxic", f.toxic)] : List (String × Bool)).filterMap
      (fun p => if p.2 then some p.1 else none)

structure RulesOutput where
  conflict_score : ℚ
  risk_level : String
  recommendation : String
  triggered_rules : List String
deriving DecidableEq, Repr

def apply_rules (text : String) (model_output : ModelSignal) : RulesOutput :=
  let features := extract_rule_features text model_output
  let score := calculate_conflict_score features
  { conflict_score := round3 score
    risk_level := risk_level_of score
    recommendation := recommendation_of score
    triggered_rules := triggeredRules features }

/-! ## Orchestrator (app.py lines 71-121): `analyze_text` -/

/-- The fallback signal substituted when the model call raises
(app.py lines 78-82). -/
def defaultSignal : ModelSignal := ⟨"neutral", 0, 0⟩

/-- The model output used by the pipeline: the call's value on success,
the fallback on exception. -/
def effectiveModel : Except String ModelSignal → ModelSignal
  | .ok m => m
  | .error _ => defaultSignal

/-- `model_error`: `None` on success, `str(exc)` on exception. -/
def modelErrorOf : Except String ModelSignal → Option String
  | .ok _ => none
  | .error e => some e

/-- `severity_map.get(risk_level, "low")` (app.py lines 88-93). -/
def severityOf (risk_level : String) : String :=
  if risk_level == "LOW" then "low"
  else if risk_level == "MEDIUM" then "medium"
  else if risk_level == "HIGH" then "high"
  else "low"

/-- `r.replace('_', ' ')` for the single-character pattern `'_'`. -/
def replaceUnderscores (s : String) : String :=
  ⟨s.data.map (fun c => if c == '_' then ' ' else c)⟩

/-- Python `str.title()`: a cased character is uppercased when the previous
character is not alphabetic, lowercased otherwise. -/
def titlecaseGo : List Char → Bool → List Char
  | [], _ => []
  | c :: cs, prevAlpha =>
    (if prevAlpha then c.toLower else c.toUpper) :: titlecaseGo cs c.isAlpha

def titlecase (s : String) : String := ⟨titlecaseGo s.data false⟩

/-- `f"Rule triggered: {r.replace('_', ' ').title()}"` (app.py line 96). -/
def ruleFlag (r : String) : String :=
  "Rule triggered: " ++ titlecase (replaceUnderscores r)

def capsFlag : String := "⚠️ Excessive caps detected (aggressive tone)"

def exclFlag : String := "⚠️ Multiple exclamation marks (strong emotion)"

def noNegFlag : String := "✅ No negative indicators"

/-- `sum(1 for c in text if c.isupper())` (app.py line 99). -/
def capsCount (text : String) : Nat := (text.data.filter Char.isUpper).length

/-- `text and caps_count > len(text) * 0.3` (app.py line 100), with the
comparison taken exactly: `caps_count > 0.3 * len(text)` over ℚ. -/
def capsTriggered (text : String) : Bool :=
  !text.data.isEmpty && decide ((text.data.length : ℚ) * 0.3 < (capsCount text : ℚ))

/-- `text.count("!")` (app.py line 105). -/
def exclCount (text : String) : Nat :=
  (text.data.filter (fun c => c == '!')).length

/-- `exclamation_count >= 3` (app.py line 106). -/
def exclTriggered (text : String) : Bool := decide (3 ≤ exclCount text)

/-- `len(text.split())`: the number of maximal non-whitespace runs. -/
def wordCountAux : List Char → Bool → Nat
  | [], _ => 0
  | c :: cs, inWord =>
    if c.isWhitespace then wordCountAux cs false
    else (if inWord then 0 else 1) + wordCountAux cs true

def wordCount (text : String) : Nat := wordCountAux text.data false

structure AnalysisResult where
  conflict_score : ℤ
  severity : String
  flags : List String
  suggestion : String
  word_count : Nat
  triggered_rules : List String
  model : ModelSignal
  model_error : Option String
deriving DecidableEq, Repr

/-- app.py `analyze_text`, with the outcome of `model.analyze_message(text)`
(success value or raised exception message) passed as `modelResult`. -/
def analyze_text (text : String) (modelResult : Except String ModelSignal) :
    AnalysisResult :=
  let model_output := effectiveModel modelResult
  let model_error := modelErrorOf modelResult
  let rules_output := apply_rules text model_output
  let severity := severityOf rules_output.risk_level
  let score0 : ℤ := round (rules_output.conflict_score * 100)
  let flags0 := rules_output.triggered_rules.map ruleFlag
  let score1 : ℤ := if capsTriggered text then min 100 (score0 + 10) else score0
  let flags1 := if capsTriggered text then flags0 ++ [capsFlag] else flags0
  let score2 : ℤ := if exclTriggered text then min 100 (score1 + 5) else score1
  let flags2 := if exclTriggered text then flags1 ++ [exclFlag] else flags1
  { conflict_score := score2
    severity := severity
    flags := if flags2.isEmpty then [noNegFlag] else flags2
    suggestion := rules_output.recommendation
    word_count := wordCount text
    triggered_rules := rules_output.triggered_rules
    model := model_output
    model_error := model_error }

/-! ## Exact fixed-point view of the scoring arithmetic

Every weight and synergy bonus in `calculate_conflict_score` is an integer
number of hundredths, so the score is always an exact multiple of `1/100`.
`centiScore` computes that numerator over `ℤ`; the lemmas below identify
the two views, so that concrete instances can be settled by `decide`
(the library's `ℚ` arithmetic is irreducible and cannot be evaluated by
the kernel directly). -/

def centiScore (f : FeatureSet) : ℤ :=
  let s : ℤ :=
    (if f.negative_tone then 30 else 0)
    + (if f.norm_violation then 60 else 0)
    + (if f.negative_interaction then 20 else 0)
    + (if f.rejection then 35 else 0)
    + (if f.blame then 30 else 0)
    + (if f.confrontational then 25 else 0)
    + (if f.toxic then 50 else 0)
  let s := s + (if f.negative_tone && f.rejection then 15 else 0)
  let s := s + (if f.blame && f.confrontational then 15 else 0)
  min s 100

/-- The weight table of spec §4.3, each weight tagged with its feature name
and with whether that feature is true in `f`. -/
def specWeights (f : FeatureSet) : List (String × ℚ × Bool) :=
  [("negative_tone", 0.30, f.negative_tone),
   ("norm_violation", 0.60, f.norm_violation),
   ("negative_interaction", 0.20, f.negative_interaction),
   ("rejection", 0.35, f.rejection),
   ("blame", 0.30, f.blame),
   ("confrontational", 0.25, f.confrontational),
   ("toxic", 0.50, f.toxic)]

/-- The scorer as the spec words it (claim C2): the sum of the fixed weights
over the features that are true, plus 0.15 if both `negative_tone` and
`rejection` are true, plus 0.15 if both `blame` and `confrontational` are
true, clamped to [0, 1]. -/
def score_spec (f : FeatureSet) : ℚ :=
  min ((((specWeights f).filter (fun p => p.2.2)).map (fun p => p.2.1)).sum
       + (if f.negative_tone && f.rejection then (0.15 : ℚ) else 0)
       + (if f.blame && f.confrontational then (0.15 : ℚ) else 0)) 1

/-- Whether the strings `a` and `b` occur as an adjacent token pair. -/
def hasAdjacentPair (a b : String) : List String → Bool
  | x :: y :: rest => (x == a && y == b) || hasAdjacentPair a b (y :: rest)
  | _ => false

/-- The negative-tone feature as claim C5 words it: a negative-evaluation
token occurs, or the "dont" "like" bigram occurs as an adjacent pair. -/
def negativeTone_claim (tokens : List String) : Bool :=
  decide (0 < count_overlap tokens NEGATIVE_EVALUATIONS)
    || hasAdjacentPair "dont" "like" tokens

/-- The text `"I don't like this"` (claim C10), with a real apostrophe. -/
def sampleDontLike : String := "I don" ++ apostrophe.toString ++ "t like this"

theorem calc_eq_centi (f : FeatureSet) :
    calculate_conflict_score f = (centiScore f : ℚ) / 100 := by
  rcases f with ⟨a, b, c, d, e, g, t⟩
  cases a <;> cases b <;> cases c <;> cases d <;> cases e <;> cases g <;> cases t <;>
    norm_num [calculate_conflict_score, centiScore, min_def]

theorem div100_lt_div100 (n m : ℤ) : (n : ℚ) / 100 < (m : ℚ) / 100 ↔ n < m := by
  rw [div_lt_div_iff_of_pos_right (show (0 : ℚ) < 100 by norm_num)]
  exact Int.cast_lt

theorem div100_le_div100 (n m : ℤ) : (n : ℚ) / 100 ≤ (m : ℚ) / 100 ↔ n ≤ m := by
  rw [div_le_div_iff_of_pos_right (show (0 : ℚ) < 100 by norm_num)]
  exact Int.cast_le

theorem q03_eq : (0.3 : ℚ) = ((30 : ℤ) : ℚ) / 100 := by norm_num

theorem q06_eq : (0.6 : ℚ) = ((60 : ℤ) : ℚ) / 100 := by norm_num

theorem round3_div100 (n : ℤ) : round3 ((n : ℚ) / 100) = (n : ℚ) / 100 := by
  unfold round3
  rw [show ((n : ℚ) / 100) * 1000 = ((n * 10 : ℤ) : ℚ) by push_cast; ring,
      round_intCast]
  push_cast; ring

theorem round_div100_mul100 (n : ℤ) : round (((n : ℚ) / 100) * 100) = n := by
  rw [show ((n : ℚ) / 100) * 100 = ((n : ℤ) : ℚ) by ring, round_intCast]

/-- The caps-ratio test `caps_count > len(text) * 0.3`, restated over ℕ. -/
theorem capsNat_iff (text : String) :
    (text.data.length : ℚ) * 0.3 < (capsCount text : ℚ)
      ↔ 3 * text.data.length < 10 * capsCount text := by
  rw [show (0.3 : ℚ) = 3 / 10 by norm_num,
      show (text.data.length : ℚ) * (3 / 10) = ((3 * text.data.length : ℕ) : ℚ) / 10 by
        push_cast; ring,
      div_lt_iff₀ (show (0 : ℚ) < 10 by norm_num),
      show ((capsCount text : ℕ) : ℚ) * 10 = ((10 * capsCount text : ℕ) : ℚ) by
        push_cast; ring]
  exact Nat.cast_lt

theorem capsTriggered_eq (text : String) :
    capsTriggered text
      = (!text.data.isEmpty && decide (3 * text.data.length < 10 * capsCount text)) := by
  unfold capsTriggered
  simp only [capsNat_iff]

theorem centiScore_bounds (f : FeatureSet) : 0 ≤ centiScore f ∧ centiScore f ≤ 100 := by
  revert f; decide

/-- The score of `apply_rules`, seen through the fixed-point bridge. -/
theorem apply_rules_score (text : String) (m : ModelSignal) :
    (apply_rules text m).conflict_score
      = (centiScore (extract_rule_features text m) : ℚ) / 100 := by
  simp only [apply_rules, calc_eq_centi, round3_div100]

/-- The integer score before the surface heuristics is exactly `centiScore`. -/
theorem analyze_base_score (text : String) (m : ModelSignal) :
    round ((apply_rules text m).conflict_score * 100)
      = centiScore (extract_rule_features text m) := by
  rw [apply_rules_score, round_div100_mul100]

/-- The `conflict_score` field of `analyze_text`, expanded. -/
theorem analyze_conflict_score_def (text : String) (mr : Except String ModelSignal) :
    (analyze_text text mr).conflict_score
      = (if exclTriggered text
         then min 100 ((if capsTriggered text
              then min 100 (round ((apply_rules text (effectiveModel mr)).conflict_score * 100) + 10)
              else round ((apply_rules text (effectiveModel mr)).conflict_score * 100)) + 5)
         else if capsTriggered text
              then min 100 (round ((apply_rules text (effectiveModel mr)).conflict_score * 100) + 10)
              else round ((apply_rules text (effectiveModel mr)).conflict_score * 100)) := rfl

theorem apply_rules_risk (text : String) (m : ModelSignal) :
    (apply_rules text m).risk_level
      = risk_level_of (calculate_conflict_score (extract_rule_features text m)) := rfl

theorem apply_rules_rec (text : String) (m : ModelSignal) :
    (apply_rules text m).recommendation
      = recommendation_of (calculate_conflict_score (extract_rule_features text m)) := rfl

theorem apply_rules_triggered (text : String) (m : ModelSignal) :
    (apply_rules text m).triggered_rules
      = triggeredRules (extract_rule_features text m) := rfl

theorem analyze_severity_def (text : String) (mr : Except String ModelSignal) :
    (analyze_text text mr).severity
      = severityOf (apply_rules text (effectiveModel mr)).risk_level := rfl

/-- Score-threshold helpers, routed through the fixed-point bridge so concrete
instances can be discharged by `decide`. -/
theorem score_lt_030 {f : FeatureSet} (h : centiScore f < 30) :
    calculate_conflict_score f < (0.3 : ℚ) := by
  rw [calc_eq_centi, q03_eq]
  exact (div100_lt_div100 _ _).mpr h

theorem score_ge_030 {f : FeatureSet} (h : 30 ≤ centiScore f) :
    (0.3 : ℚ) ≤ calculate_conflict_score f := by
  rw [calc_eq_centi, q03_eq]
  exact (div100_le_div100 _ _).mpr h

theorem score_lt_060 {f : FeatureSet} (h : centiScore f < 60) :
    calculate_conflict_score f < (0.6 : ℚ) := by
  rw [calc_eq_centi, q06_eq]
  exact (div100_lt_div100 _ _).mpr h

theorem score_ge_060 {f : FeatureSet} (h : 60 ≤ centiScore f) :
    (0.6 : ℚ) ≤ calculate_conflict_score f := by
  rw [calc_eq_centi, q06_eq]
  exact (div100_le_div100 _ _).mpr h

theorem capsTriggered_true_of {text : String}
    (h : (!text.data.isEmpty && decide (3 * text.data.length < 10 * capsCount text)) = true) :
    capsTriggered text = true := (capsTriggered_eq text).trans h

/-- The `flags` field of `analyze_text`, expanded. -/
theorem analyze_flags_def (text : String) (mr : Except String ModelSignal) :
    (analyze_text text mr).flags
      = (if (if exclTriggered text
             then (if capsTriggered text
                   then ((apply_rules text (effectiveModel mr)).triggered_rules.map ruleFlag)
                        ++ [capsFlag]
                   else (apply_rules text (effectiveModel mr)).triggered_rules.map ruleFlag)
                  ++ [exclFlag]
             else (if capsTriggered text
                   then ((apply_rules text (effectiveModel mr)).triggered_rules.map ruleFlag)
                        ++ [capsFlag]
                   else (apply_rules text (effectiveModel mr)).triggered_rules.map ruleFlag)).isEmpty
         then [noNegFlag]
         else (if exclTriggered text
             then (if capsTriggered text
                   then ((apply_rules text (effectiveModel mr)).triggered_rules.map ruleFlag)
                        ++ [capsFlag]
                   else (apply_rules text (effectiveModel mr)).triggered_rules.map ruleFlag)
                  ++ [exclFlag]
             else (if capsTriggered text
                   then ((apply_rules text (effectiveModel mr)).triggered_rules.map ruleFlag)
                        ++ [capsFlag]
                   else (apply_rules text (effectiveModel mr)).triggered_rules.map ruleFlag))) := rfl

/-! ## Claims -/

/-- C1: for every input text and every model outcome (success or raised
exception), the `conflict_score` field of the full analysis is an integer
in the closed range [0, 100], including after the caps and exclamation
adjustments. -/
theorem C1_conflict_score_in_range (text : String) (mr : Except String ModelSignal) :
    0 ≤ (analyze_text text mr).conflict_score
      ∧ (analyze_text text mr).conflict_score ≤ 100 := by
  have hb := centiScore_bounds (extract_rule_features text (effectiveModel mr))
  rw [analyze_conflict_score_def, analyze_base_score]
  split_ifs <;> constructor <;> omega

set_option maxHeartbeats 4000000 in
/-- C2: `calculate_conflict_score` returns exactly the spec's weighted sum
with synergy bonuses, clamped to [0, 1]. -/
theorem C2_score_is_weighted_sum (f : FeatureSet) :
    calculate_conflict_score f = score_spec f := by
  rcases f with ⟨a, b, c, d, e, g, t⟩
  cases a <;> cases b <;> cases c <;> cases d <;> cases e <;> cases g <;> cases t <;>
    (simp only [calculate_conflict_score, score_spec, specWeights,
                List.filter_cons, List.filter_nil, List.map_cons, List.map_nil,
                List.sum_cons, List.sum_nil]
     norm_num [min_def])

/-- C4: flipping any single feature to true (all others fixed) can only
raise the result of `calculate_conflict_score` or leave it unchanged. -/
theorem C4_score_monotone (f : FeatureSet) :
    calculate_conflict_score f ≤ calculate_conflict_score {f with negative_tone := true}
  ∧ calculate_conflict_score f ≤ calculate_conflict_score {f with norm_violation := true}
  ∧ calculate_conflict_score f ≤ calculate_conflict_score {f with negative_interaction := true}
  ∧ calculate_conflict_score f ≤ calculate_conflict_score {f with rejection := true}
  ∧ calculate_conflict_score f ≤ calculate_conflict_score {f with blame := true}
  ∧ calculate_conflict_score f ≤ calculate_conflict_score {f with confrontational := true}
  ∧ calculate_conflict_score f ≤ calculate_conflict_score {f with toxic := true} := by
  have key : ∀ g g' : FeatureSet, centiScore g ≤ centiScore g' →
      calculate_conflict_score g ≤ calculate_conflict_score g' := by
    intro g g' h
    rw [calc_eq_centi, calc_eq_centi]
    exact (div100_le_div100 _ _).mpr h
  refine ⟨key _ _ ?_, key _ _ ?_, key _ _ ?_, key _ _ ?_,
          key _ _ ?_, key _ _ ?_, key _ _ ?_⟩ <;> (revert f; decide)

/-- C3: the risk classifier is a pure function of the clamped score with
inclusive-low/exclusive-high bins: below 0.30 is LOW ("No action needed"),
in [0.30, 0.60) MEDIUM ("Suggest cooling-off or rephrasing"), at or above
0.60 HIGH ("Intervene or alert moderator"). -/
theorem C3_risk_bins (text : String) (m : ModelSignal) :
    (calculate_conflict_score (extract_rule_features text m) < (0.3 : ℚ) →
       (apply_rules text m).risk_level = "LOW"
       ∧ (apply_rules text m).recommendation = "No action needed")
  ∧ ((0.3 : ℚ) ≤ calculate_conflict_score (extract_rule_features text m) →
     calculate_conflict_score (extract_rule_features text m) < (0.6 : ℚ) →
       (apply_rules text m).risk_level = "MEDIUM"
       ∧ (apply_rules text m).recommendation = "Suggest cooling-off or rephrasing")
  ∧ ((0.6 : ℚ) ≤ calculate_conflict_score (extract_rule_features text m) →
       (apply_rules text m).risk_level = "HIGH"
       ∧ (apply_rules text m).recommendation = "Intervene or alert moderator") := by
  rw [apply_rules_risk, apply_rules_rec]
  unfold risk_level_of recommendation_of
  split_ifs with h1 h2 <;>
    refine ⟨fun ha => ?_, fun hb hc => ?_, fun hd => ?_⟩ <;>
    first
      | exact ⟨rfl, rfl⟩
      | (exfalso; linarith)

/-- Witness for C3: a text scoring exactly 0.30 classifies MEDIUM and a text
scoring exactly 0.60 classifies HIGH. -/
theorem C3_risk_bins_witness :
    (apply_rules "this is wrong" ⟨"neutral", 0, 0⟩).risk_level = "MEDIUM"
  ∧ (apply_rules "fuck" ⟨"neutral", 0, 0⟩).risk_level = "HIGH" :=
  ⟨((C3_risk_bins "this is wrong" ⟨"neutral", 0, 0⟩).2.1
      (score_ge_030 (by decide)) (score_lt_060 (by decide))).1,
   ((C3_risk_bins "fuck" ⟨"neutral", 0, 0⟩).2.2
      (score_ge_060 (by decide))).1⟩

/-- C6: when the model call raises, `analyze_text` still returns the complete
result computed with the default signal `{neutral, 0.0, 0.0}` and a non-null
`model_error`; on success `model_error` is null. (`analyze_text` is a total
function, so it never propagates a model failure.) -/
theorem C6_model_failure_absorbed (text : String) (e : String) (m : ModelSignal) :
    analyze_text text (.error e)
        = { analyze_text text (.ok defaultSignal) with model_error := some e }
      ∧ (analyze_text text (.error e)).model = defaultSignal
      ∧ (analyze_text text (.error e)).model_error = some e
      ∧ (analyze_text text (.ok m)).model_error = none :=
  ⟨rfl, rfl, rfl, rfl⟩

/-- C8: the severity field is the §4.4 tier of the rule-layer score before
the caps and exclamation adjustments, lowercased; the heuristics never
change it. -/
theorem C8_severity_preheuristic (text : String) (mr : Except String ModelSignal) :
    (analyze_text text mr).severity
      = (if calculate_conflict_score (extract_rule_features text (effectiveModel mr)) < (0.3 : ℚ)
         then "low"
         else if calculate_conflict_score (extract_rule_features text (effectiveModel mr)) < (0.6 : ℚ)
         then "medium"
         else "high") := by
  rw [analyze_severity_def, apply_rules_risk]
  unfold risk_level_of
  split_ifs <;> rfl

/-- C7: the caps heuristic (uppercase count exceeding 30% of a non-empty
text) adds 10 to the integer score capped at 100 and appends the caps flag;
the exclamation heuristic (at least three bangs) adds 5 capped at 100 and
appends its flag; when both fire they add 15 on top of the rule score,
subject to the cap. -/
theorem C7_surface_heuristics (text : String) (mr : Except String ModelSignal) :
    (capsTriggered text = true →
        capsFlag ∈ (analyze_text text mr).flags
      ∧ (exclTriggered text = false →
          (analyze_text text mr).conflict_score
            = min 100 (round ((apply_rules text (effectiveModel mr)).conflict_score * 100) + 10)))
  ∧ (exclTriggered text = true →
        exclFlag ∈ (analyze_text text mr).flags
      ∧ (capsTriggered text = false →
          (analyze_text text mr).conflict_score
            = min 100 (round ((apply_rules text (effectiveModel mr)).conflict_score * 100) + 5)))
  ∧ (capsTriggered text = true → exclTriggered text = true →
        (analyze_text text mr).conflict_score
          = min 100 (round ((apply_rules text (effectiveModel mr)).conflict_score * 100) + 15))
  ∧ (capsTriggered text = false → exclTriggered text = false →
        (analyze_text text mr).conflict_score
          = round ((apply_rules text (effectiveModel mr)).conflict_score * 100)) := by
  rw [analyze_conflict_score_def, analyze_flags_def]
  cases hc : capsTriggered text <;> cases he : exclTriggered text <;>
    simp [hc, he, List.mem_append] <;> omega

/-- Witness for C7: "THIS IS YOUR FAULT!!!" fires both heuristics. -/
theorem C7_surface_heuristics_witness :
    capsFlag ∈ (analyze_text "THIS IS YOUR FAULT!!!"
        (.ok ⟨"negative", mkRat 82 100, mkRat 67 100⟩)).flags
  ∧ exclFlag ∈ (analyze_text "THIS IS YOUR FAULT!!!"
        (.ok ⟨"negative", mkRat 82 100, mkRat 67 100⟩)).flags
  ∧ (analyze_text "THIS IS YOUR FAULT!!!"
        (.ok ⟨"negative", mkRat 82 100, mkRat 67 100⟩)).conflict_score
      = min 100 (round ((apply_rules "THIS IS YOUR FAULT!!!"
          (effectiveModel (.ok ⟨"negative", mkRat 82 100, mkRat 67 100⟩))).conflict_score
            * 100) + 15) := by
  have h := C7_surface_heuristics "THIS IS YOUR FAULT!!!"
    (.ok ⟨"negative", mkRat 82 100, mkRat 67 100⟩)
  exact ⟨(h.1 (capsTriggered_true_of (by decide))).1,
         (h.2.1 (by decide)).1,
         h.2.2.1 (capsTriggered_true_of (by decide)) (by decide)⟩

/-- C9: the flags are one "Rule triggered: <Rule Name>" string per triggered
rule in order, followed by any heuristic flags; when rules and heuristics
produce no flag, the flags field is exactly the single no-negative-indicators
flag. -/
theorem C9_flags_assembly (text : String) (mr : Except String ModelSignal) :
    ((apply_rules text (effectiveModel mr)).triggered_rules.map ruleFlag
        ++ (if capsTriggered text then [capsFlag] else [])
        ++ (if exclTriggered text then [exclFlag] else []) ≠ [] →
      (analyze_text text mr).flags
        = (apply_rules text (effectiveModel mr)).triggered_rules.map ruleFlag
          ++ (if capsTriggered text then [capsFlag] else [])
          ++ (if exclTriggered text then [exclFlag] else []))
  ∧ ((apply_rules text (effectiveModel mr)).triggered_rules.map ruleFlag
        ++ (if capsTriggered text then [capsFlag] else [])
        ++ (if exclTriggered text then [exclFlag] else []) = [] →
      (analyze_text text mr).flags = [noNegFlag]) := by
  rw [analyze_flags_def]
  cases hc : capsTriggered text <;> cases he : exclTriggered text <;>
    constructor <;> intro h <;> simp_all [List.isEmpty_iff]

/-- Witness for C9: a profanity-only text yields exactly its rule flag, and
a neutral text yields exactly the no-negative-indicators flag. -/
theorem C9_flags_assembly_witness :
    (analyze_text "fuck" (.ok ⟨"neutral", 0, 0⟩)).flags = [ruleFlag "norm_violation"]
  ∧ (analyze_text "hello" (.ok ⟨"neutral", 0, 0⟩)).flags = [noNegFlag] := by
  have h1 := C9_flags_assembly "fuck" (.ok ⟨"neutral", 0, 0⟩)
  have h2 := C9_flags_assembly "hello" (.ok ⟨"neutral", 0, 0⟩)
  rw [capsTriggered_eq] at h1 h2
  exact ⟨(h1.1 (by decide)).trans (by decide), h2.2 (by decide)⟩

/-- C5 counterexample: in "dont worry i like it" the tokens "dont" and
"like" never occur as an adjacent pair and no negative-evaluation token
occurs, yet the code's `negative_tone_pattern` fires. -/
theorem C5_negative_tone_counterexample :
    negative_tone_pattern (tokenize "dont worry i like it") = true
  ∧ negativeTone_claim (tokenize "dont worry i like it") = false := by decide

/-- C5 amended: `negative_tone` is true exactly when some token is in the
negative-evaluation vocabulary, or both the token "dont" and the token
"like" occur anywhere in the token sequence (adjacency is not required). -/
theorem C5_negative_tone_amended (text : String) :
    negative_tone_pattern (tokenize text) = true
      ↔ (∃ t ∈ tokenize text, t ∈ NEGATIVE_EVALUATIONS)
        ∨ ("dont" ∈ tokenize text ∧ "like" ∈ tokenize text) := by
  simp [negative_tone_pattern, count_overlap, ← List.countP_eq_length_filter,
        List.countP_pos_iff]

theorem tokenizeAux_mem_wordChar :
    ∀ (l acc : List Char), (∀ c ∈ acc, isWordChar c = true) →
      ∀ tok ∈ tokenizeAux l acc, ∀ c ∈ tok.data, isWordChar c = true := by
  intro l
  induction l with
  | nil =>
    intro acc hacc tok htok c hc
    unfold tokenizeAux at htok
    by_cases he : acc.isEmpty
    · simp [he] at htok
    · rw [if_neg he] at htok
      rcases List.mem_singleton.mp htok with rfl
      exact hacc c (List.mem_reverse.mp (by simpa using hc))
  | cons ch cs ih =>
    intro acc hacc tok htok c hc
    unfold tokenizeAux at htok
    by_cases hw : isWordChar ch
    · rw [if_pos hw] at htok
      refine ih (ch :: acc) ?_ tok htok c hc
      intro x hx
      rcases List.mem_cons.mp hx with rfl | hx'
      · exact hw
      · exact hacc x hx'
    · rw [if_neg hw] at htok
      by_cases he : acc.isEmpty
      · rw [if_pos he] at htok
        exact ih acc hacc tok htok c hc
      · rw [if_neg he] at htok
        rcases List.mem_cons.mp htok with rfl | hmem
        · exact hacc c (List.mem_reverse.mp (by simpa using hc))
        · exact ih [] (by simp) tok hmem c hc

/-- C10: no token ever contains an apostrophe (tokens are maximal word-char
runs), so the apostrophe-bearing lexicon entries can never match a token;
"I don't like this" tokenizes to ["i","don","t","like","this"] and triggers
neither the rejection feature nor the "dont"+"like" branch of negative
tone. -/
theorem C10_tokens_have_no_apostrophe :
    (∀ text : String, ∀ tok ∈ tokenize text, apostrophe ∉ tok.data)
  ∧ (∀ text : String,
       dontApos ∉ tokenize text ∧ cantApos ∉ tokenize text
         ∧ youreApos ∉ tokenize text)
  ∧ tokenize sampleDontLike = ["i", "don", "t", "like", "this"]
  ∧ rejection_pattern (tokenize sampleDontLike) = false
  ∧ ¬("dont" ∈ tokenize sampleDontLike ∧ "like" ∈ tokenize sampleDontLike) := by
  have key : ∀ text : String, ∀ tok ∈ tokenize text, apostrophe ∉ tok.data := by
    intro text tok htok hmem
    have hw := tokenizeAux_mem_wordChar _ [] (by simp) tok htok apostrophe hmem
    exact absurd hw (by decide)
  refine ⟨key, fun text => ⟨fun h => ?_, fun h => ?_, fun h => ?_⟩,
          by decide, by decide, by decide⟩
  · exact key text dontApos h (by decide)
  · exact key text cantApos h (by decide)
  · exact key text youreApos h (by decide)

/-- Witness for C10 at a concrete token of a concrete text. -/
theorem C10_tokens_have_no_apostrophe_witness :
    apostrophe ∉ ("don" : String).data :=
  C10_tokens_have_no_apostrophe.1 sampleDontLike "don" (by decide)

end SentinelAI
